import Mathlib

/-!
Verification development for the `ssoq` single sign-on service.

The embedding translates the authentication core of the repository:
- `internal/jwt/jwt.go` (`GenerateToken`, `ParseToken`),
- `internal/services/auth/service.go` (`Login`, `Register`, `Logout`, `RefreshToken`),
- `internal/storage/pgsql.go` (the persistence operations on `users`, `apps`, `sessions`).

Modelling conventions:
- Time is explicit: every operation that consults the clock takes `now : Int`
  (Unix seconds), standing for the `time.Now()` calls in the Go source.
- JWT cryptography is modelled symbolically: a signed token is its claim set
  together with the secret whose HMAC signature it carries.  HS256 signing is
  deterministic, so two tokens are equal as strings exactly when their claim
  sets and signing secrets are equal; `DecidableEq` on `Token` models string
  equality of encoded tokens.
- bcrypt is external (`golang.org/x/crypto/bcrypt`); it is modelled by a
  deterministic symbolic hash for which verification succeeds exactly when the
  digest was produced from the same plaintext.
- Storage reads are total (infrastructure failures of `SELECT`s are outside
  the claims); the one write failure the claims mention, `SaveToken` failing
  after successful token issuance, is injected via a `saveTokenOk : Bool`
  parameter standing for the outcome of the `tokenSaver.SaveToken` call.
-/

namespace Ssoq

/-- A JSON claim value as it appears after decoding: JSON strings stay
strings, JSON numbers decode to `float64` in Go; integral ids are modelled
as `Int`. -/
inductive ClaimValue where
  | vNum : Int → ClaimValue
  | vStr : String → ClaimValue
deriving DecidableEq, Repr

/-- `model.User`, as read back by `storage.GetUser` / `GetUserByID`:
`id, email, pass_hash, username, app_id`. -/
structure User where
  id : Int
  email : String
  password : String
  username : String
  appId : Int
deriving DecidableEq, Repr

/-- `model.App`: `id, name, secret`. -/
structure App where
  id : Int
  name : String
  secret : String
deriving DecidableEq, Repr

/-- The claim set `jwt.MapClaims` as used by this program: the six keys
written by `GenerateToken`.  Each field is optional because a presented
token need not carry the key at all (`claims["user_id"]` may be absent). -/
structure MapClaims where
  user_id : Option ClaimValue
  username : Option ClaimValue
  email : Option ClaimValue
  app_id : Option ClaimValue
  exp : Option ClaimValue
  purpose : Option ClaimValue
deriving DecidableEq, Repr

/-- A syntactically well-formed JWS: its decoded claim set plus the secret
under which its HMAC-SHA256 signature verifies.  Encoding is deterministic
(Go's `encoding/json` sorts map keys, HS256 is a deterministic MAC), so
equality of `Token` values models equality of the encoded token strings. -/
structure Token where
  claims : MapClaims
  signedWith : String
deriving DecidableEq, Repr

/-! ## Storage (`internal/storage/pgsql.go`)

The three tables are rows in lists; `user_id` is the unique key of
`sessions` (the `ON CONFLICT (user_id)` clause presupposes it). -/

/-- `SELECT ... FROM users WHERE email = $1` (first matching row). -/
def findUserByEmail : List User → String → Option User
  | [], _ => none
  | u :: rest, email => if u.email = email then some u else findUserByEmail rest email

/-- `SELECT ... FROM users WHERE id = $1`. -/
def findUserById : List User → Int → Option User
  | [], _ => none
  | u :: rest, id => if u.id = id then some u else findUserById rest id

/-- `SELECT id, name, secret FROM apps WHERE id = $1`. -/
def findApp : List App → Int → Option App
  | [], _ => none
  | a :: rest, id => if a.id = id then some a else findApp rest id

/-- `SELECT refresh_token FROM sessions WHERE user_id = $1`; `none` models
the `sql.ErrNoRows` branch of `GetToken`, which returns `""` without error. -/
def lookupTok : List (Int × Token) → Int → Option Token
  | [], _ => none
  | s :: rest, uid => if s.1 = uid then some s.2 else lookupTok rest uid

/-- `INSERT INTO sessions ... ON CONFLICT (user_id) DO UPDATE SET
refresh_token = EXCLUDED.refresh_token` over a table keyed by `user_id`. -/
def upsertTok : List (Int × Token) → Int → Token → List (Int × Token)
  | [], uid, t => [(uid, t)]
  | s :: rest, uid, t => if s.1 = uid then (uid, t) :: rest else s :: upsertTok rest uid t

/-- `DELETE FROM sessions WHERE user_id = $1`. -/
def deleteTok : List (Int × Token) → Int → List (Int × Token)
  | [], _ => []
  | s :: rest, uid => if s.1 = uid then deleteTok rest uid else s :: deleteTok rest uid

/-- The durable state owned by the repository: `users`, `apps`, `sessions`. -/
structure DB where
  users : List User
  apps : List App
  sessions : List (Int × Token)
deriving DecidableEq, Repr

def DB.getUser (db : DB) (email : String) : Option User :=
  findUserByEmail db.users email

def DB.getUserByID (db : DB) (id : Int) : Option User :=
  findUserById db.users id

def DB.app (db : DB) (app_id : Int) : Option App :=
  findApp db.apps app_id

def DB.getToken (db : DB) (user_id : Int) : Option Token :=
  lookupTok db.sessions user_id

def DB.saveToken (db : DB) (user_id : Int) (tok : Token) : DB :=
  { db with sessions := upsertTok db.sessions user_id tok }

def DB.deleteToken (db : DB) (user_id : Int) : DB :=
  { db with sessions := deleteTok db.sessions user_id }

/-- The id the `RETURNING id` clause hands back for a fresh `users` row
(the next value of the id sequence). -/
def DB.nextUserId (db : DB) : Int :=
  (db.users.foldl (fun m u => max m u.id) 0) + 1

/-- `storage.SaveUser`: `INSERT INTO users (email, pass_hash, username, app_id)
... RETURNING id`.  Modelled from the spec: the persisted schema (spec §6)
declares `users.email` unique and Register is specified to fail with
`StorageError` on conflict; the SQL migrations themselves are not in the
source tree, so the unique constraint is taken from the spec.  `none` models
the constraint-violation error. -/
def DB.saveUser (db : DB) (email password username : String) (app_id : Int) :
    Option (Int × DB) :=
  if (findUserByEmail db.users email).isSome then none
  else
    some (db.nextUserId,
      { db with users := db.users ++ [⟨db.nextUserId, email, password, username, app_id⟩] })

/-! ## Password hashing (external capability) -/

/-- Symbolic model of `bcrypt.GenerateFromPassword`: a deterministic injective
digest of the plaintext. -/
def bcryptHash (plaintext : String) : String :=
  "bcrypt$" ++ plaintext

/-- Symbolic model of `bcrypt.CompareHashAndPassword`: verification succeeds
exactly when the digest was produced from the same plaintext. -/
def bcryptVerify (digest plaintext : String) : Bool :=
  digest = bcryptHash plaintext

/-- Symbolic model of `bcrypt.GenerateFromPassword`: the pinned
`golang.org/x/crypto v0.46.0` rejects passwords longer than 72 bytes with
`bcrypt.ErrPasswordTooLong` (`none` here); otherwise it returns the digest. -/
def bcryptGenerate (plaintext : String) : Option String :=
  if 72 < plaintext.utf8ByteSize then none else some (bcryptHash plaintext)

/-! ## JWT (`internal/jwt/jwt.go`) -/

/-- `GenerateToken(app, user, tokenTTL)`: builds the access and refresh claim
sets and signs both with `app.Secret`.  The access token expires at
`now + tokenTTL`; the refresh token always at `now + 24h` (86400 s).  The
`app`/`user` nil-checks of the Go source cannot arise here because both
arguments are non-nullable. -/
def GenerateToken (app : App) (user : User) (now tokenTTL : Int) : Token × Token :=
  (⟨⟨some (.vNum user.id), some (.vStr user.username), some (.vStr user.email),
     some (.vNum app.id), some (.vNum (now + tokenTTL)), some (.vStr "access")⟩,
    app.secret⟩,
   ⟨⟨some (.vNum user.id), some (.vStr user.username), some (.vStr user.email),
     some (.vNum app.id), some (.vNum (now + 24 * 3600)), some (.vStr "refresh")⟩,
    app.secret⟩)

/-- `ParseToken(token, app)` = `jwt.Parse` keyed by `app.Secret`.  With the
default golang-jwt v5 parser this verifies the signature and validates the
registered claims: a present `exp` must lie strictly in the future
(`now < exp`); a missing `exp` is accepted (`RequireExp` is off by default);
a non-numeric `exp` fails `GetExpirationTime`.  On success the parsed token
is `Valid` and its claims are `jwt.MapClaims`. -/
def ParseToken (tok : Token) (app : App) (now : Int) : Option Token :=
  if tok.signedWith = app.secret then
    match tok.claims.exp with
    | none => some tok
    | some (.vStr _) => none
    | some (.vNum e) => if e ≤ now then none else some tok
  else none

/-! ## Error taxonomy

The Go service returns untyped `error` values built with `fmt.Errorf`; each
constructor below corresponds to one distinct failure site / message, named
by the spec's taxonomy (§7). -/

inductive AuthErr where
  /-- "email and password are required" / "... username are required" /
  "password is too short" -/
  | validationError
  /-- `bcrypt.ErrMismatchedHashAndPassword` propagated from `Login` -/
  | invalidCredentials
  /-- "app not found" from `storage.App`, "user not found" from refresh -/
  | notFound
  /-- "invalid token" (parse failure) / "invalid user_id in token" -/
  | invalidToken
  /-- "invalid token purpose" -/
  | wrongTokenPurpose
  /-- "token is revoked or invalid" -/
  | revokedToken
  /-- an error returned by a storage write -/
  | storageError
  /-- `bcrypt.ErrPasswordTooLong` propagated from `Register` -/
  | hashingError
deriving DecidableEq, Repr

/-! ## Auth service (`internal/services/auth/service.go`)

Each operation returns its Go results (`""` tokens become `none`) paired
with the post-state of the store. -/

/-- Result of `Login`: `(bool, string, string, error)`. -/
structure LoginResult where
  ok : Bool
  accessToken : Option Token
  refreshToken : Option Token
  err : Option AuthErr
deriving DecidableEq, Repr

/-- Result of `Register`: `(bool, int64, error)`. -/
structure RegisterResult where
  ok : Bool
  userId : Int
  err : Option AuthErr
deriving DecidableEq, Repr

/-- Result of `Logout`: `(bool, error)`. -/
structure LogoutResult where
  ok : Bool
  err : Option AuthErr
deriving DecidableEq, Repr

/-- Result of `RefreshToken`: `(string, string, error)`. -/
structure RefreshResult where
  accessToken : Option Token
  refreshToken : Option Token
  err : Option AuthErr
deriving DecidableEq, Repr

/-- `Auth.Login(ctx, email, password, app_id)`. -/
def Login (db : DB) (saveTokenOk : Bool) (email password : String) (app_id : Int)
    (now tokenTTL : Int) : LoginResult × DB :=
  if email = "" ∨ password = "" then
    (⟨false, none, none, some .validationError⟩, db)
  else
    match db.getUser email with
    | none => (⟨false, none, none, none⟩, db)
    | some user =>
      if bcryptVerify user.password password = false then
        (⟨false, none, none, some .invalidCredentials⟩, db)
      else
        match db.app app_id with
        | none => (⟨false, none, none, some .notFound⟩, db)
        | some app =>
          if saveTokenOk = false then
            (⟨false, none, none, some .storageError⟩, db)
          else
            (⟨true, some (GenerateToken app user now tokenTTL).1,
              some (GenerateToken app user now tokenTTL).2, none⟩,
             db.saveToken user.id (GenerateToken app user now tokenTTL).2)

/-- `Auth.Register(ctx, email, password, username, app_id)`.  `len(password)`
in Go counts UTF-8 bytes, hence `utf8ByteSize`.  After the two validation
checks the source calls `bcrypt.GenerateFromPassword` and propagates its
error (`return false, 0, err`) before `SaveUser` runs — reachable for
passwords longer than 72 bytes. -/
def Register (db : DB) (email password username : String) (app_id : Int) :
    RegisterResult × DB :=
  if email = "" ∨ password = "" ∨ username = "" then
    (⟨false, 0, some .validationError⟩, db)
  else if password.utf8ByteSize < 8 then
    (⟨false, 0, some .validationError⟩, db)
  else
    match bcryptGenerate password with
    | none => (⟨false, 0, some .hashingError⟩, db)
    | some encryptedPassword =>
      match db.saveUser email encryptedPassword username app_id with
      | none => (⟨false, 0, some .storageError⟩, db)
      | some (id, dbNew) => (⟨true, id, none⟩, dbNew)

/-- `Auth.Logout(ctx, providedToken, app_id)`.  After a successful
`jwt.Parse` the token is `Valid` and its claims are `MapClaims`, so the
`!ok || !token.Valid` guard of the source cannot fire; the next check is the
`claims["user_id"].(float64)` type assertion. -/
def Logout (db : DB) (providedToken : Token) (app_id now : Int) : LogoutResult × DB :=
  match db.app app_id with
  | none => (⟨false, some .notFound⟩, db)
  | some app =>
    match ParseToken providedToken app now with
    | none => (⟨false, some .invalidToken⟩, db)
    | some token =>
      match token.claims.user_id with
      | some (.vNum userID) => (⟨true, none⟩, db.deleteToken userID)
      | _ => (⟨false, some .invalidToken⟩, db)

/-- `Auth.RefreshToken(ctx, providedToken, app_id)`.  The `dbToken == ""`
branch of the source corresponds to `getToken = none` (a missing session row
is read back as the empty string, which can never equal a parseable token). -/
def RefreshToken (db : DB) (saveTokenOk : Bool) (providedToken : Token)
    (app_id now tokenTTL : Int) : RefreshResult × DB :=
  match db.app app_id with
  | none => (⟨none, none, some .notFound⟩, db)
  | some app =>
    match ParseToken providedToken app now with
    | none => (⟨none, none, some .invalidToken⟩, db)
    | some token =>
      match token.claims.user_id with
      | some (.vNum userID) =>
        if token.claims.purpose ≠ some (.vStr "refresh") then
          (⟨none, none, some .wrongTokenPurpose⟩, db)
        else
          match db.getToken userID with
          | none => (⟨none, none, some .revokedToken⟩, db)
          | some dbToken =>
            if dbToken ≠ providedToken then
              (⟨none, none, some .revokedToken⟩, db)
            else
              match db.getUserByID userID with
              | none => (⟨none, none, some .notFound⟩, db)
              | some user =>
                if saveTokenOk = false then
                  (⟨none, none, some .storageError⟩, db)
                else
                  (⟨some (GenerateToken app user now tokenTTL).1,
                    some (GenerateToken app user now tokenTTL).2, none⟩,
                   db.saveToken user.id (GenerateToken app user now tokenTTL).2)
      | _ => (⟨none, none, some .invalidToken⟩, db)

end Ssoq

namespace Ssoq

/-! ## Concrete fixtures used by witnesses and counterexamples -/

/-- A tenant with id 1 and secret `"s3cret"`. -/
def appW : App := ⟨1, "web", "s3cret"⟩

/-- A stored user whose digest was produced from `"password1"`. -/
def userW : User := ⟨1, "a@b.c", bcryptHash "password1", "alice", 1⟩

/-- The empty store. -/
def dbEmpty : DB := ⟨[], [], []⟩

/-- A store holding `userW` and `appW` and no session. -/
def dbU : DB := ⟨[userW], [appW], []⟩

/-- A validly signed, unexpired token for `appW` that carries no `user_id`
claim at all (purpose `"access"`). -/
def tokNoUidW : Token :=
  ⟨⟨none, none, none, some (.vNum 1), some (.vNum 1000), some (.vStr "access")⟩, "s3cret"⟩

/-- The access token issued for `userW` under `appW` at time 0 with TTL 100. -/
def tokAccessW : Token := (GenerateToken appW userW 0 100).1

end Ssoq

namespace Ssoq

/-- C5: `GenerateToken` builds two claim sets sharing `user_id`, `username`,
`email` and `app_id`; the access token expires at issuance time plus the
caller-supplied TTL with purpose `"access"`, the refresh token always at
issuance time plus 24 hours (86400 s) with purpose `"refresh"`, independent
of the TTL; both are signed with the tenant's secret. -/
theorem generateToken_claim_shape (app : App) (user : User) (now tokenTTL : Int) :
    (GenerateToken app user now tokenTTL).1.claims.user_id = some (.vNum user.id) ∧
    (GenerateToken app user now tokenTTL).2.claims.user_id = some (.vNum user.id) ∧
    (GenerateToken app user now tokenTTL).1.claims.username = some (.vStr user.username) ∧
    (GenerateToken app user now tokenTTL).2.claims.username = some (.vStr user.username) ∧
    (GenerateToken app user now tokenTTL).1.claims.email = some (.vStr user.email) ∧
    (GenerateToken app user now tokenTTL).2.claims.email = some (.vStr user.email) ∧
    (GenerateToken app user now tokenTTL).1.claims.app_id = some (.vNum app.id) ∧
    (GenerateToken app user now tokenTTL).2.claims.app_id = some (.vNum app.id) ∧
    (GenerateToken app user now tokenTTL).1.claims.exp = some (.vNum (now + tokenTTL)) ∧
    (GenerateToken app user now tokenTTL).2.claims.exp = some (.vNum (now + 24 * 3600)) ∧
    (GenerateToken app user now tokenTTL).1.claims.purpose = some (.vStr "access") ∧
    (GenerateToken app user now tokenTTL).2.claims.purpose = some (.vStr "refresh") ∧
    (GenerateToken app user now tokenTTL).1.signedWith = app.secret ∧
    (GenerateToken app user now tokenTTL).2.signedWith = app.secret := by
  simp [GenerateToken]

/-- C2 counterexample: `tokNoUidW` is validly signed for `appW`, decodable
(unexpired), and its purpose claim `"access"` is not `"refresh"`, yet
`RefreshToken` fails with the invalid-user_id error (`InvalidToken`), not
`WrongTokenPurpose`: the `user_id` type assertion runs before the purpose
check. -/
theorem refresh_wrong_purpose_counterexample :
    tokNoUidW.signedWith = appW.secret ∧
    ParseToken tokNoUidW appW 0 = some tokNoUidW ∧
    tokNoUidW.claims.purpose = some (ClaimValue.vStr "access") ∧
    (RefreshToken dbU true tokNoUidW 1 0 100).1.err = some AuthErr.invalidToken := by
  decide

/-- C2 (amended): for every validly signed, decodable token that carries a
numeric `user_id` claim and whose purpose claim is not `"refresh"` (in
particular every access token), `RefreshToken` fails with
`WrongTokenPurpose` and leaves the store untouched, for any store contents:
the stored session is not consulted, no user is loaded, no tokens are
issued, no state changes. -/
theorem refresh_wrong_purpose (db : DB) (saveTokenOk : Bool) (tok : Token) (app : App)
    (app_id now tokenTTL uid : Int)
    (happ : db.app app_id = some app)
    (hparse : ParseToken tok app now = some tok)
    (huid : tok.claims.user_id = some (ClaimValue.vNum uid))
    (hpurp : tok.claims.purpose ≠ some (ClaimValue.vStr "refresh")) :
    RefreshToken db saveTokenOk tok app_id now tokenTTL =
      (⟨none, none, some AuthErr.wrongTokenPurpose⟩, db) := by
  simp [RefreshToken, happ, hparse, huid, hpurp]

/-- C2 witness: the concrete access token `tokAccessW` presented for refresh. -/
theorem refresh_wrong_purpose_witness :
    RefreshToken dbU true tokAccessW 1 0 100 =
      (⟨none, none, some AuthErr.wrongTokenPurpose⟩, dbU) :=
  refresh_wrong_purpose dbU true tokAccessW appW 1 0 100 1
    (by decide) (by decide) (by decide) (by decide)

/-- C3 counterexample: `"a@b.c"` is a non-empty email matching no stored
user, yet `Login` with the empty password returns a `ValidationError`
rather than the claimed error-free negative result: the required-field
check runs before the user lookup. -/
theorem login_unknown_email_counterexample :
    dbEmpty.getUser "a@b.c" = none ∧
    (Login dbEmpty true "a@b.c" "" 1 0 100).1.err = some AuthErr.validationError := by
  decide

/-- C3 (amended): for every non-empty email matching no stored user and
every non-empty password, `Login` returns the non-error negative result
`(false, "", "", nil)` — never `InvalidCredentials` or `NotFound` — and
leaves the store untouched. -/
theorem login_unknown_email (db : DB) (saveTokenOk : Bool) (email password : String)
    (app_id now tokenTTL : Int)
    (hemail : email ≠ "") (hpw : password ≠ "")
    (huser : db.getUser email = none) :
    Login db saveTokenOk email password app_id now tokenTTL =
      (⟨false, none, none, none⟩, db) := by
  simp [Login, hemail, hpw, huser]

/-- C3 witness: unknown email `"a@b.c"` against the empty store. -/
theorem login_unknown_email_witness :
    Login dbEmpty true "a@b.c" "pw" 1 0 100 = (⟨false, none, none, none⟩, dbEmpty) :=
  login_unknown_email dbEmpty true "a@b.c" "pw" 1 0 100
    (by decide) (by decide) (by decide)

/-- C4 counterexample: `userW` is stored under `"a@b.c"` and the empty
password does not match its digest, yet `Login` fails with
`ValidationError`, not `InvalidCredentials`: the required-field check runs
before password verification. -/
theorem login_wrong_password_counterexample :
    dbU.getUser "a@b.c" = some userW ∧
    bcryptVerify userW.password "" = false ∧
    (Login dbU true "a@b.c" "" 1 0 100).1.err = some AuthErr.validationError := by
  decide

/-- C4 (amended): for every stored user looked up by a non-empty email and
every non-empty password whose hash does not match the stored digest,
`Login` fails with `InvalidCredentials`, returning `ok = false` and empty
tokens, and performs no app lookup, token issuance or session write (the
result and post-state are independent of `apps` and `sessions`, and the
store is unchanged). -/
theorem login_wrong_password (db : DB) (saveTokenOk : Bool) (email password : String)
    (app_id now tokenTTL : Int) (user : User)
    (hemail : email ≠ "") (hpw : password ≠ "")
    (huser : db.getUser email = some user)
    (hmatch : bcryptVerify user.password password = false) :
    Login db saveTokenOk email password app_id now tokenTTL =
      (⟨false, none, none, some AuthErr.invalidCredentials⟩, db) := by
  simp [Login, hemail, hpw, huser, hmatch]

/-- C4 witness: wrong password `"wrongpass1"` for the stored `userW`. -/
theorem login_wrong_password_witness :
    Login dbU true "a@b.c" "wrongpass1" 1 0 100 =
      (⟨false, none, none, some AuthErr.invalidCredentials⟩, dbU) :=
  login_wrong_password dbU true "a@b.c" "wrongpass1" 1 0 100 userW
    (by decide) (by decide) (by decide) (by decide)

end Ssoq

namespace Ssoq

/-! ## Helper lemmas about the session table -/

theorem lookupTok_upsertTok_self (l : List (Int × Token)) (uid : Int) (t : Token) :
    lookupTok (upsertTok l uid t) uid = some t := by
  induction l with
  | nil => simp [upsertTok, lookupTok]
  | cons s rest ih =>
    by_cases h : s.1 = uid
    · simp [upsertTok, h, lookupTok]
    · simp [upsertTok, h, lookupTok, ih]

theorem lookupTok_deleteTok_self (l : List (Int × Token)) (uid : Int) :
    lookupTok (deleteTok l uid) uid = none := by
  induction l with
  | nil => simp [deleteTok, lookupTok]
  | cons s rest ih =>
    by_cases h : s.1 = uid
    · simp [deleteTok, h, ih]
    · simp [deleteTok, h, lookupTok, ih]

theorem deleteTok_idem (l : List (Int × Token)) (uid : Int) :
    deleteTok (deleteTok l uid) uid = deleteTok l uid := by
  induction l with
  | nil => simp [deleteTok]
  | cons s rest ih =>
    by_cases h : s.1 = uid
    · simp [deleteTok, h, ih]
    · simp [deleteTok, h, ih]

theorem getToken_saveToken_self (db : DB) (uid : Int) (t : Token) :
    (db.saveToken uid t).getToken uid = some t := by
  simp [DB.saveToken, DB.getToken, lookupTok_upsertTok_self]

theorem getToken_deleteToken_self (db : DB) (uid : Int) :
    (db.deleteToken uid).getToken uid = none := by
  simp [DB.deleteToken, DB.getToken, lookupTok_deleteTok_self]

theorem app_saveToken (db : DB) (uid : Int) (t : Token) (a : Int) :
    (db.saveToken uid t).app a = db.app a := rfl

theorem app_deleteToken (db : DB) (uid : Int) (a : Int) :
    (db.deleteToken uid).app a = db.app a := rfl

theorem getUserByID_saveToken (db : DB) (uid : Int) (t : Token) (i : Int) :
    (db.saveToken uid t).getUserByID i = db.getUserByID i := rfl

theorem deleteToken_idem (db : DB) (uid : Int) :
    (db.deleteToken uid).deleteToken uid = db.deleteToken uid := by
  simp [DB.deleteToken, deleteTok_idem]

/-! ## Further fixtures -/

/-- A validly signed token for `appW` with numeric `user_id` 1 that expired
at time 10, purpose `"refresh"`. -/
def tokExpiredW : Token :=
  ⟨⟨some (.vNum 1), none, none, some (.vNum 1), some (.vNum 10), some (.vStr "refresh")⟩,
   "s3cret"⟩

/-- A store where `tokExpiredW` is exactly the stored session token of user 1. -/
def dbS : DB := ⟨[userW], [appW], [(1, tokExpiredW)]⟩

/-- An unexpired refresh token for `userW` under `appW` (expiry 1000), with
the `app_id` claim of tenant 1 embedded. -/
def tokRefreshW : Token :=
  ⟨⟨some (.vNum 1), some (.vStr "alice"), some (.vStr "a@b.c"), some (.vNum 1),
    some (.vNum 1000), some (.vStr "refresh")⟩, "s3cret"⟩

/-- A validly signed, unexpired token for `appW` with numeric `user_id` but a
nonsense purpose claim, matching no stored session. -/
def tokOddW : Token :=
  ⟨⟨some (.vNum 1), none, none, none, some (.vNum 1000), some (.vStr "banana")⟩, "s3cret"⟩

/-- A store where user 1 has the live session `tokRefreshW`. -/
def dbSess : DB := ⟨[userW], [appW], [(1, tokRefreshW)]⟩

/-- A second tenant that shares `appW`'s signing secret. -/
def app2W : App := ⟨2, "mobile", "s3cret"⟩

/-- `dbSess` extended with the second tenant `app2W`. -/
def dbTwoApps : DB := ⟨[userW], [appW, app2W], [(1, tokRefreshW)]⟩

end Ssoq

namespace Ssoq

/-- C6 counterexample: `tokExpiredW` is correctly signed with `appW`'s secret
and carries the numeric `user_id` 1, and it even exactly matches the stored
session, yet at time 100 (past its expiry 10) `Logout` fails with
`InvalidToken` and deletes nothing — `jwt.Parse` validates `exp`, so not
every correctly signed token with a numeric `user_id` can log out. -/
theorem logout_signed_token_counterexample :
    tokExpiredW.signedWith = appW.secret ∧
    tokExpiredW.claims.user_id = some (ClaimValue.vNum 1) ∧
    Logout dbS tokExpiredW 1 100 = (⟨false, some AuthErr.invalidToken⟩, dbS) := by
  decide

/-- C6 (amended): for every token that is correctly signed with the app's
secret, passes expiry validation at decode time, and carries a numeric
`user_id` claim, `Logout` deletes that user's session row and returns
success — regardless of the token's purpose claim and regardless of whether
the token matches any stored session token (neither is constrained here);
the row is gone afterwards, and repeating the `Logout` still succeeds on the
unchanged state: deleting a non-existent session is not an error, so
`Logout` is idempotent. -/
theorem logout_any_signed_token (db : DB) (app : App) (tok : Token)
    (app_id uid now : Int)
    (happ : db.app app_id = some app)
    (hparse : ParseToken tok app now = some tok)
    (huid : tok.claims.user_id = some (ClaimValue.vNum uid)) :
    Logout db tok app_id now = (⟨true, none⟩, db.deleteToken uid) ∧
    (db.deleteToken uid).getToken uid = none ∧
    Logout (db.deleteToken uid) tok app_id now = (⟨true, none⟩, db.deleteToken uid) := by
  have happ2 : (db.deleteToken uid).app app_id = some app := happ
  refine ⟨by simp [Logout, happ, hparse, huid], getToken_deleteToken_self db uid, ?_⟩
  simp [Logout, happ2, hparse, huid, deleteToken_idem]

/-- C6 witness: `tokOddW` (purpose `"banana"`, matching no stored session)
terminates user 1's session `tokRefreshW`, twice. -/
theorem logout_any_signed_token_witness :
    Logout dbSess tokOddW 1 0 = (⟨true, none⟩, dbSess.deleteToken 1) ∧
    (dbSess.deleteToken 1).getToken 1 = none ∧
    Logout (dbSess.deleteToken 1) tokOddW 1 0 = (⟨true, none⟩, dbSess.deleteToken 1) :=
  logout_any_signed_token dbSess appW tokOddW 1 1 0 (by decide) (by decide) (by decide)

/-- C10: a token whose `exp` claim is in the past at call time is rejected
with `InvalidToken` by both `RefreshToken` and `Logout`, with the store
untouched, whatever the purpose claim, stored session (it may even exactly
match), and user table contents: decode-time expiry validation runs before
the purpose, stored-session and user checks. -/
theorem expired_token_rejected (db : DB) (saveTokenOk : Bool) (app : App) (tok : Token)
    (app_id e now tokenTTL : Int)
    (happ : db.app app_id = some app)
    (hsig : tok.signedWith = app.secret)
    (hexp : tok.claims.exp = some (ClaimValue.vNum e))
    (hpast : e ≤ now) :
    RefreshToken db saveTokenOk tok app_id now tokenTTL =
      (⟨none, none, some AuthErr.invalidToken⟩, db) ∧
    Logout db tok app_id now = (⟨false, some AuthErr.invalidToken⟩, db) := by
  have hp : ParseToken tok app now = none := by simp [ParseToken, hsig, hexp, hpast]
  exact ⟨by simp [RefreshToken, happ, hp], by simp [Logout, happ, hp]⟩

/-- C10 witness: the expired `tokExpiredW` still exactly matches the stored
session of user 1 in `dbS`, yet can neither be exchanged nor log out. -/
theorem expired_token_rejected_witness :
    dbS.getToken 1 = some tokExpiredW ∧
    RefreshToken dbS true tokExpiredW 1 100 100 =
      (⟨none, none, some AuthErr.invalidToken⟩, dbS) ∧
    Logout dbS tokExpiredW 1 100 = (⟨false, some AuthErr.invalidToken⟩, dbS) :=
  ⟨by decide,
   expired_token_rejected dbS true appW tokExpiredW 1 10 100 100
     (by decide) (by decide) (by decide) (by decide)⟩

/-- C9: tenant binding is by secret only.  Nothing here constrains the
token's embedded `app_id` claim, and the lookup key `aid2` is an arbitrary
app id resolving to an app `app2` whose secret equals the signing secret
`app1.secret`: any such token is accepted, so `RefreshToken` succeeds and
`Logout` succeeds when presented with the other tenant's id. -/
theorem tenant_binding_by_secret_only (db : DB) (app1 app2 : App) (user : User)
    (r1 : Token) (aid2 uid e now tokenTTL : Int)
    (happ : db.app aid2 = some app2)
    (hsec : app2.secret = app1.secret)
    (hsig : r1.signedWith = app1.secret)
    (hexp : r1.claims.exp = some (ClaimValue.vNum e))
    (hnow : now < e)
    (huid : r1.claims.user_id = some (ClaimValue.vNum uid))
    (hpurp : r1.claims.purpose = some (ClaimValue.vStr "refresh"))
    (hstored : db.getToken uid = some r1)
    (huser : db.getUserByID uid = some user) :
    (RefreshToken db true r1 aid2 now tokenTTL).1.err = none ∧
    (Logout db r1 aid2 now).1 = ⟨true, none⟩ := by
  have hparse : ParseToken r1 app2 now = some r1 := by
    simp [ParseToken, hsig, hsec, hexp, not_le.mpr hnow]
  exact ⟨by simp [RefreshToken, happ, hparse, huid, hpurp, hstored, huser],
         by simp [Logout, happ, hparse, huid]⟩

/-- C9 witness: `tokRefreshW` was issued under tenant 1 (its `app_id` claim
is 1) but is accepted when presented with tenant 2's id, because `app2W`
shares the secret. -/
theorem tenant_binding_by_secret_only_witness :
    tokRefreshW.claims.app_id = some (ClaimValue.vNum 1) ∧
    (RefreshToken dbTwoApps true tokRefreshW 2 0 100).1.err = none ∧
    (Logout dbTwoApps tokRefreshW 2 0).1 = ⟨true, none⟩ :=
  ⟨by decide,
   tenant_binding_by_secret_only dbTwoApps appW app2W userW tokRefreshW 2 1 1000 0 100
     (by decide) (by decide) (by decide) (by decide) (by decide) (by decide)
     (by decide) (by decide) (by decide)⟩

/-- C7: failure atomicity of issuance-then-persist.  When every step up to
token issuance succeeds but the session write fails (`saveTokenOk = false`),
`Login` returns `(false, "", "", err)` and `RefreshToken` returns
`("", "", err)` — the issued tokens are discarded, the store is unchanged,
and the error is reported immediately with no retry or compensation. -/
theorem save_failure_atomicity (db : DB) (email password : String) (user ruser : User)
    (app rapp : App) (app_id rapp_id now tokenTTL uid e : Int) (r1 : Token)
    (hemail : email ≠ "") (hpw : password ≠ "")
    (huser : db.getUser email = some user)
    (hmatch : bcryptVerify user.password password = true)
    (happ : db.app app_id = some app)
    (happr : db.app rapp_id = some rapp)
    (hsig : r1.signedWith = rapp.secret)
    (hexp : r1.claims.exp = some (ClaimValue.vNum e))
    (hnow : now < e)
    (huid : r1.claims.user_id = some (ClaimValue.vNum uid))
    (hpurp : r1.claims.purpose = some (ClaimValue.vStr "refresh"))
    (hstored : db.getToken uid = some r1)
    (hruser : db.getUserByID uid = some ruser) :
    Login db false email password app_id now tokenTTL =
      (⟨false, none, none, some AuthErr.storageError⟩, db) ∧
    RefreshToken db false r1 rapp_id now tokenTTL =
      (⟨none, none, some AuthErr.storageError⟩, db) := by
  have hparse : ParseToken r1 rapp now = some r1 := by
    simp [ParseToken, hsig, hexp, not_le.mpr hnow]
  exact ⟨by simp [Login, hemail, hpw, huser, hmatch, happ],
         by simp [RefreshToken, happr, hparse, huid, hpurp, hstored, hruser]⟩

/-- C7 witness: a correct login and a valid stored refresh token, both with
the session write failing. -/
theorem save_failure_atomicity_witness :
    Login dbSess false "a@b.c" "password1" 1 0 100 =
      (⟨false, none, none, some AuthErr.storageError⟩, dbSess) ∧
    RefreshToken dbSess false tokRefreshW 1 0 100 =
      (⟨none, none, some AuthErr.storageError⟩, dbSess) :=
  save_failure_atomicity dbSess "a@b.c" "password1" userW userW appW appW 1 1 0 100 1 1000
    tokRefreshW (by decide) (by decide) (by decide) (by decide) (by decide) (by decide)
    (by decide) (by decide) (by decide) (by decide) (by decide) (by decide) (by decide)

end Ssoq

namespace Ssoq

/-- The refresh token `GenerateToken` issues for `userW` under `appW` at
time 0 with TTL 100: the rotation fixpoint used against C1. -/
def r1Rot : Token := (GenerateToken appW userW 0 100).2

/-- A store where `r1Rot` is user 1's stored session token. -/
def dbRot : DB := ⟨[userW], [appW], [(1, r1Rot)]⟩

/-- C1 counterexample: user 1's stored session token is `r1Rot`, and
`RefreshToken(r1Rot, 1)` at time 0 succeeds — but the new pair is generated
in the same second `r1Rot` itself was issued, so the rotated refresh token
has the identical claim set and (HS256 being deterministic) is the same
token string; the store is overwritten with the same value, and the
subsequent `RefreshToken(r1Rot, 1)` succeeds again instead of failing with
`RevokedToken`. -/
theorem refresh_rotation_counterexample :
    dbRot.getToken 1 = some r1Rot ∧
    (RefreshToken dbRot true r1Rot 1 0 100).1.err = none ∧
    (RefreshToken dbRot true r1Rot 1 0 100).1.refreshToken = some r1Rot ∧
    (RefreshToken (RefreshToken dbRot true r1Rot 1 0 100).2 true r1Rot 1 0 100).1.err
      = none := by
  decide

/-- C1 (amended): rotation invariant, provided the newly issued refresh
token differs from the presented one `r1` (guaranteed whenever the refresh
runs in a different second than `r1`'s issuance, since the `exp` claims then
differ): a successful `RefreshToken(r1, app_id)` returns a fresh pair and
overwrites the stored session with the new refresh token, after which
`RefreshToken(r1, app_id)` fails with `RevokedToken` (the presented token no
longer equals the stored one) while refreshing with the new token succeeds. -/
theorem refresh_rotation (db : DB) (app : App) (user : User) (r1 : Token)
    (app_id uid e1 now1 now2 tokenTTL : Int)
    (happ : db.app app_id = some app)
    (hsig : r1.signedWith = app.secret)
    (hexp : r1.claims.exp = some (ClaimValue.vNum e1))
    (h1 : now1 < e1) (h2 : now2 < e1)
    (huid : r1.claims.user_id = some (ClaimValue.vNum uid))
    (hpurp : r1.claims.purpose = some (ClaimValue.vStr "refresh"))
    (hstored : db.getToken uid = some r1)
    (huser : db.getUserByID uid = some user)
    (hida : user.id = uid)
    (h3 : now2 < now1 + 24 * 3600)
    (hne : (GenerateToken app user now1 tokenTTL).2 ≠ r1) :
    RefreshToken db true r1 app_id now1 tokenTTL =
      (⟨some (GenerateToken app user now1 tokenTTL).1,
        some (GenerateToken app user now1 tokenTTL).2, none⟩,
       db.saveToken uid (GenerateToken app user now1 tokenTTL).2) ∧
    (db.saveToken uid (GenerateToken app user now1 tokenTTL).2).getToken uid =
      some (GenerateToken app user now1 tokenTTL).2 ∧
    (RefreshToken (db.saveToken uid (GenerateToken app user now1 tokenTTL).2) true r1
        app_id now2 tokenTTL).1.err = some AuthErr.revokedToken ∧
    (RefreshToken (db.saveToken uid (GenerateToken app user now1 tokenTTL).2) true
        (GenerateToken app user now1 tokenTTL).2 app_id now2 tokenTTL).1.err = none := by
  have hparse1 : ParseToken r1 app now1 = some r1 := by
    simp [ParseToken, hsig, hexp, not_le.mpr h1]
  have hparse2 : ParseToken r1 app now2 = some r1 := by
    simp [ParseToken, hsig, hexp, not_le.mpr h2]
  refine ⟨?_, getToken_saveToken_self db uid (GenerateToken app user now1 tokenTTL).2,
          ?_, ?_⟩
  · simp [RefreshToken, happ, hparse1, huid, hpurp, hstored, huser, hida]
  · simp [RefreshToken, app_saveToken, happ, hparse2, huid, hpurp,
          getToken_saveToken_self, hne]
  · have hsig2 : (GenerateToken app user now1 tokenTTL).2.signedWith = app.secret := rfl
    have hexp2 : (GenerateToken app user now1 tokenTTL).2.claims.exp
        = some (ClaimValue.vNum (now1 + 24 * 3600)) := rfl
    have huid2 : (GenerateToken app user now1 tokenTTL).2.claims.user_id
        = some (ClaimValue.vNum user.id) := rfl
    have hpurp2 : (GenerateToken app user now1 tokenTTL).2.claims.purpose
        = some (ClaimValue.vStr "refresh") := rfl
    have hparse3 : ParseToken (GenerateToken app user now1 tokenTTL).2 app now2 =
        some (GenerateToken app user now1 tokenTTL).2 := by
      simp [ParseToken, hsig2, hexp2]
      omega
    simp [RefreshToken, app_saveToken, happ, hparse3, huid2, hpurp2,
          getToken_saveToken_self, getUserByID_saveToken, huser, hida]

/-- C1 witness: `tokRefreshW` (expiry 1000) is stored for user 1; rotating
at time 0 and re-presenting at time 5 shows revocation, while the rotated
token is accepted. -/
theorem refresh_rotation_witness :
    RefreshToken dbSess true tokRefreshW 1 0 100 =
      (⟨some (GenerateToken appW userW 0 100).1,
        some (GenerateToken appW userW 0 100).2, none⟩,
       dbSess.saveToken 1 (GenerateToken appW userW 0 100).2) ∧
    (dbSess.saveToken 1 (GenerateToken appW userW 0 100).2).getToken 1 =
      some (GenerateToken appW userW 0 100).2 ∧
    (RefreshToken (dbSess.saveToken 1 (GenerateToken appW userW 0 100).2) true
        tokRefreshW 1 5 100).1.err = some AuthErr.revokedToken ∧
    (RefreshToken (dbSess.saveToken 1 (GenerateToken appW userW 0 100).2) true
        (GenerateToken appW userW 0 100).2 1 5 100).1.err = none :=
  refresh_rotation dbSess appW userW tokRefreshW 1 1 1000 0 5 100
    (by decide) (by decide) (by decide) (by decide) (by decide) (by decide)
    (by decide) (by decide) (by decide) (by decide) (by decide) (by decide)

/-- An 80-byte password: beyond bcrypt's 72-byte limit. -/
def pw80W : String := String.mk (List.replicate 80 'a')

/-- C8 counterexample: two failures of the unconditional `otherwise ...
ok = true` branch.  All of email, password (9 bytes) and username are
non-empty and long enough, yet because a user with email `"a@b.c"` is
already stored, `Register` fails with a `StorageError` (unique-email
conflict) instead of persisting; and the 80-byte password `pw80W` passes
both validation checks yet `bcrypt.GenerateFromPassword` rejects it
(password too long), so `Register` fails before anything is persisted. -/
theorem register_counterexample :
    (¬("a@b.c" = "" ∨ "password1" = "" ∨ "alice" = "" ∨
        String.utf8ByteSize "password1" < 8) ∧
      Register dbU "a@b.c" "password1" "alice" 1 =
        (⟨false, 0, some AuthErr.storageError⟩, dbU)) ∧
    (¬("x@y.z" = "" ∨ pw80W = "" ∨ "bob" = "" ∨ String.utf8ByteSize pw80W < 8) ∧
      72 < String.utf8ByteSize pw80W ∧
      Register dbEmpty "x@y.z" pw80W "bob" 1 =
        (⟨false, 0, some AuthErr.hashingError⟩, dbEmpty)) := by
  decide

/-- C8 (amended): `Register` fails with `ValidationError` — returning
`(false, 0, error)` with nothing hashed or persisted — exactly when email,
password or username is empty or the password is shorter than 8 bytes;
otherwise, if the password is at most 72 bytes (bcrypt's limit) and no
stored user already has that email, it persists the new user with the
hashed password and returns the fresh id with `ok = true`; a duplicate
email makes the insert fail with `StorageError`, and a password longer
than 72 bytes fails with bcrypt's password-too-long error before anything
is persisted. -/
theorem register_correct (db : DB) (email password username : String) (app_id : Int) :
    ((Register db email password username app_id).1.err = some AuthErr.validationError ↔
      (email = "" ∨ password = "" ∨ username = "" ∨ password.utf8ByteSize < 8)) ∧
    ((email = "" ∨ password = "" ∨ username = "" ∨ password.utf8ByteSize < 8) →
      Register db email password username app_id =
        (⟨false, 0, some AuthErr.validationError⟩, db)) ∧
    (¬(email = "" ∨ password = "" ∨ username = "" ∨ password.utf8ByteSize < 8) →
      password.utf8ByteSize ≤ 72 →
      findUserByEmail db.users email = none →
      Register db email password username app_id =
        (⟨true, db.nextUserId, none⟩,
         { db with users := db.users ++
             [⟨db.nextUserId, email, bcryptHash password, username, app_id⟩] })) ∧
    (¬(email = "" ∨ password = "" ∨ username = "" ∨ password.utf8ByteSize < 8) →
      password.utf8ByteSize ≤ 72 →
      (findUserByEmail db.users email).isSome →
      Register db email password username app_id =
        (⟨false, 0, some AuthErr.storageError⟩, db)) ∧
    (¬(email = "" ∨ password = "" ∨ username = "" ∨ password.utf8ByteSize < 8) →
      72 < password.utf8ByteSize →
      Register db email password username app_id =
        (⟨false, 0, some AuthErr.hashingError⟩, db)) := by
  by_cases h1 : email = "" ∨ password = "" ∨ username = ""
  · refine ⟨?_, fun _ => by simp [Register, h1], fun hv _ _ => absurd (by tauto) hv,
            fun hv _ _ => absurd (by tauto) hv, fun hv _ => absurd (by tauto) hv⟩
    simp [Register, h1]
    tauto
  · by_cases h2 : password.utf8ByteSize < 8
    · refine ⟨?_, fun _ => by simp [Register, h1, h2], fun hv _ _ => absurd (by tauto) hv,
              fun hv _ _ => absurd (by tauto) hv, fun hv _ => absurd (by tauto) hv⟩
      simp [Register, h1, h2]
    · by_cases h72 : 72 < password.utf8ByteSize
      · refine ⟨?_, fun hv => absurd hv (by tauto), fun _ h7 _ => absurd h72 (by omega),
                fun _ h7 _ => absurd h72 (by omega),
                fun _ _ => by simp [Register, bcryptGenerate, h1, h2, h72]⟩
        simp [Register, bcryptGenerate, h1, h2, h72]
      · refine ⟨?_, fun hv => absurd hv (by tauto), ?_, ?_, fun _ h7 => absurd h7 h72⟩
        · cases hdup : findUserByEmail db.users email with
          | none =>
            simp [Register, bcryptGenerate, DB.saveUser, h1, h2, h72, hdup]
          | some u =>
            simp [Register, bcryptGenerate, DB.saveUser, h1, h2, h72, hdup]
        · intro _ _ hdup
          simp [Register, bcryptGenerate, DB.saveUser, h1, h2, h72, hdup]
        · intro _ _ hdup
          rcases Option.isSome_iff_exists.mp hdup with ⟨u, hu⟩
          simp [Register, bcryptGenerate, DB.saveUser, h1, h2, h72, hu]

/-- C8 witness: a fresh registration against the empty store (9-byte
password, within bcrypt's limit) persists the hashed password and returns
the first id. -/
theorem register_correct_witness :
    Register dbEmpty "a@b.c" "password1" "alice" 1 =
      (⟨true, dbEmpty.nextUserId, none⟩,
       { dbEmpty with users := dbEmpty.users ++
           [⟨dbEmpty.nextUserId, "a@b.c", bcryptHash "password1", "alice", 1⟩] }) :=
  (register_correct dbEmpty "a@b.c" "password1" "alice" 1).2.2.1
    (by decide) (by decide) (by decide)

end Ssoq
